import Mathlib

/-!
Shallow embedding of the food-service backend (dishes and orders
controllers) and proofs about its validation middleware and handlers.

The two controllers under verification are
`src/dishes/dishes.controller.js` and `src/orders/orders.controller.js`.
Each exports validator chains ending in a terminal handler; a validator
either calls the success continuation `next()` or the error continuation
`next({status, message})`, and the dispatcher runs the chain in order,
routing an error to a centralized responder that answers with the error's
status and message.

Request bodies are parsed JSON, so they are modelled by an inductive type
of JSON-like JavaScript values (`JSValue`).  JavaScript numbers arriving
through JSON bodies are modelled as exact rationals (JSON cannot encode
NaN or infinities).
-/

namespace FoodService

/-- A JavaScript value as it can occur in a parsed JSON request body
(plus `undefined` for absent properties). -/
inductive JSValue where
  | undefined
  | null
  | bool (b : Bool)
  | num (q : ℚ)
  | str (s : String)
  | arr (elems : List JSValue)
  | obj (fields : List (String × JSValue))

/-- JavaScript truthiness.  `undefined`, `null`, `false`, `0`, and `""`
are falsy; arrays and objects are always truthy.  (NaN, the remaining
falsy number, cannot occur in a JSON body and is not representable
here.) -/
def JSValue.truthy : JSValue → Bool
  | .undefined => false
  | .null => false
  | .bool b => b
  | .num q => decide (q ≠ 0)
  | .str s => decide (s ≠ "")
  | .arr _ => true
  | .obj _ => true

/-- JavaScript strict equality `v === s` against a string literal or a
stored string id.  A non-string operand is never strictly equal to a
string. -/
def JSValue.eqStr : JSValue → String → Bool
  | .str s, t => s == t
  | _, _ => false

/-- Property read `v.key` where the receiver is known to be safe
(post-validation states).  Missing properties and non-object receivers
read as `undefined`. -/
def jsGet (v : JSValue) (key : String) : JSValue :=
  match v with
  | .obj fields =>
    match fields.lookup key with
    | some x => x
    | none => .undefined
  | _ => .undefined

/-- Property read `v[key]` as an expression that can throw: reading from
`null` or `undefined` raises a TypeError (`none`); reading a missing key
from any other value, primitives included (they box), yields
`undefined`. -/
def jsIndex (v : JSValue) (key : String) : Option JSValue :=
  match v with
  | .null => none
  | .undefined => none
  | .obj fields =>
    match fields.lookup key with
    | some x => some x
    | none => some .undefined
  | _ => some .undefined

/-- `const { data = {} } = req.body`: the destructuring default applies
only when the `data` property is `undefined` (absent), not when it is
`null`. -/
def dataOrDefault (body : JSValue) : JSValue :=
  match jsGet body "data" with
  | .undefined => .obj []
  | v => v

/-- Template-literal rendering `String(v)` of a JS value, used when a
validator interpolates an id into an error message.  The scalar cases are
rendered exactly; JavaScript renders an array as its elements joined by
commas and an object as "[object Object]" — the array case here is exact
only for `[]`, and no theorem below instantiates a message at an array
id. -/
def jsToString : JSValue → String
  | .undefined => "undefined"
  | .null => "null"
  | .bool b => if b then "true" else "false"
  | .num q => if q.den = 1 then toString q.num else toString q
  | .str s => s
  | .arr _ => ""
  | .obj _ => "[object Object]"

/-- A structured error handed to the error continuation
`next({ status, message })`. -/
structure ErrObj where
  status : ℕ
  message : String
deriving DecidableEq

/-- An HTTP response write: status code plus, for errors, the message the
centralized responder serializes.  Success handlers respond with a body
built from the record; only the status is tracked here. -/
structure Resp where
  status : ℕ
  message : Option String
deriving DecidableEq

/-- The continued-control-flow behaviour of one middleware invocation,
recording exactly which continuations it calls:
`pass` = one `next()`; `fail e` = one `next(e)`;
`failPass e` = `next(e)` followed by an unconditional `next()` — the
shape produced by the two buggy validators (the quantity scan whose
early return is discarded, and the URL check whose `finally` block calls
`next()` on the catch path too); `respond r` = a terminal handler that
writes a response and calls no continuation. -/
inductive Emit where
  | pass
  | fail (e : ErrObj)
  | failPass (e : ErrObj)
  | respond (r : Resp)
deriving DecidableEq

/-- A middleware over per-request state `σ` (store plus `res.locals`):
it may mutate the state and emits its continuation calls. -/
def MW (σ : Type) : Type := σ → σ × Emit

/-- The response the centralized responder writes for a dispatched
error. -/
def errResp (e : ErrObj) : Resp := ⟨e.status, some e.message⟩

/-- Sequential pipeline dispatch, as the specification describes it:
each `next()` advances to the following middleware, and `next(err)`
terminates the chain with the responder's error response.  A middleware
that calls `next(err)` and then `next()` (the documented bugs) yields the
error response followed by whatever the rest of the chain produces; the
client observes the first response in the list (later writes find the
headers already sent). -/
def runStack {σ : Type} : List (MW σ) → σ → σ × List Resp
  | [], s => (s, [])
  | m :: rest, s =>
    match m s with
    | (s', .pass) => runStack rest s'
    | (s', .fail e) => (s', [errResp e])
    | (s', .failPass e) =>
      let (s'', rs) := runStack rest s'
      (s'', errResp e :: rs)
    | (s', .respond r) => (s', [r])

/-- A request: the id route parameter (empty for collection routes, which
have none) and the parsed JSON body. -/
structure Req where
  routeId : String
  body : JSValue

/-! ## Orders controller (`src/orders/orders.controller.js`) -/

/-- A record of the orders store.  The source stores plain JS objects;
`status` is a `JSValue` because the create handler never assigns it
(reading it then yields `undefined`, modelled as `JSValue.undefined`). -/
structure Order where
  id : String
  deliverTo : JSValue
  mobileNumber : JSValue
  status : JSValue
  dishes : JSValue

/-- Per-request state for the orders routes: the store plus the two
`res.locals` slots the validators populate (`res.locals.order`, kept as
an index into the store because the source mutates the found record in
place, and `res.locals.dishes`). -/
structure OrdersState where
  orders : List Order
  localsOrderIdx : Option ℕ
  localsDishes : Option (List JSValue)

/-- The message `requestDataHasProperty` (orders variant) formats:
"Order must include a <prop>" with the `dishes` and `status`
overrides. -/
def ordersPresenceMsg (prop : String) : String :=
  if prop = "dishes" then "Order must include a dish"
  else if prop = "status" then
    "Order must have a status of pending, preparing, out-for-delivery, delivered"
  else "Order must include a " ++ prop

/-- `requestDataHasProperty(propertyName)` (orders controller): passes
when `data[propertyName]` is truthy, else fails 400.  Reading the
property from a `null` `data` throws a TypeError in JS, routed to the
responder without a status (500). -/
def requestDataHasPropertyOrders (prop : String) (req : Req) : MW OrdersState :=
  fun s =>
    match jsIndex (dataOrDefault req.body) prop with
    | none => (s, .fail ⟨500, "TypeError"⟩)
    | some v =>
      if v.truthy then (s, .pass)
      else (s, .fail ⟨400, ordersPresenceMsg prop⟩)

/-- `validateStatusForExistingOrder`: reads the request body's `status`
(not the stored order's status) and passes exactly when it is strictly
equal to "delivered"; every other body status is rejected with
"A delivered order cannot be changed".  Reachable only after the
`status` presence check, so `data` is an object here. -/
def validateStatusForExistingOrder (req : Req) : MW OrdersState :=
  fun s =>
    if (jsGet (jsGet req.body "data") "status").eqStr "delivered" then (s, .pass)
    else (s, .fail ⟨400, "A delivered order cannot be changed"⟩)

/-- `validateDishes`: requires `data.dishes` to be a non-empty array and
stores it in `res.locals.dishes`. -/
def validateDishes (req : Req) : MW OrdersState :=
  fun s =>
    match jsGet (jsGet req.body "data") "dishes" with
    | .arr ds =>
      if ds.length > 0 then ({ s with localsDishes := some ds }, .pass)
      else (s, .fail ⟨400, "Order must include at least one dish"⟩)
    | _ => (s, .fail ⟨400, "Order must include at least one dish"⟩)

/-- `dish.hasOwnProperty("quantity")`.  Primitives box to objects with no
own "quantity" property; a `null` or `undefined` entry would make the JS
receiver throw instead (no theorem below instantiates that case). -/
def hasOwnQuantity : JSValue → Bool
  | .obj fields => (fields.lookup "quantity").isSome
  | _ => false

/-- The per-entry check of `validateDishesQuantity`:
`dish.hasOwnProperty("quantity") && Number.isInteger(q) && q > 0`
(a non-number quantity fails `Number.isInteger`). -/
def dishQuantityOk (d : JSValue) : Bool :=
  hasOwnQuantity d &&
    (match jsGet d "quantity" with
     | .num q => decide (q.den = 1) && decide (0 < q)
     | _ => false)

/-- The error message for the dish at array index `i`. -/
def quantityMsg (i : ℕ) : String :=
  "dish " ++ toString i ++ " must have a quantity that is an integer greater than 0"

/-- `validateDishesQuantity`: scans `res.locals.dishes` with
`Array.prototype.every`; on the first invalid entry the callback calls
`next(err)` and returns its (undefined, hence falsy) value, stopping the
scan — and then the trailing unconditional `next()` still runs, so the
middleware emits both continuations (`failPass`).  With all entries valid
it emits a single `pass`.  (`res.locals.dishes` is always populated here:
`validateDishes` precedes this validator in every chain.) -/
def validateDishesQuantity : MW OrdersState :=
  fun s =>
    let ds := s.localsDishes.getD []
    match ds.findIdx? (fun d => !dishQuantityOk d) with
    | some i => (s, .failPass ⟨400, quantityMsg i⟩)
    | none => (s, .pass)

/-- `orderExists`: finds the order whose `id` equals the `orderId` route
parameter, storing it (as its index) in `res.locals.order`; a miss is
404. -/
def orderExists (req : Req) : MW OrdersState :=
  fun s =>
    match s.orders.findIdx? (fun o => o.id == req.routeId) with
    | some i => ({ s with localsOrderIdx := some i }, .pass)
    | none => (s, .fail ⟨404, "Order does not exist: " ++ req.routeId ++ "."⟩)

/-- `verifyOrderIdDataMatchesRoute`: reads `res.locals.order.id` (always
set, since `orderExists` precedes it; an unset local would throw, hence
the 500 branch) and passes when the body's `id` is falsy or strictly
equal to it; otherwise fails 404 with a message naming both ids. -/
def verifyOrderIdDataMatchesRoute (req : Req) : MW OrdersState :=
  fun s =>
    match s.localsOrderIdx.bind (fun i => s.orders[i]?) with
    | none => (s, .fail ⟨500, "TypeError"⟩)
    | some o =>
      let bid := jsGet (jsGet req.body "data") "id"
      if !bid.truthy || bid.eqStr o.id then (s, .pass)
      else
        (s, .fail ⟨404, "Order id does not match route id. Order: "
          ++ jsToString bid ++ ", Route: " ++ o.id ++ "."⟩)

/-- `verifyOrderIsPending`: the found order's *stored* status must be
strictly equal to "pending"; otherwise the delete is rejected with
404. -/
def verifyOrderIsPending : MW OrdersState :=
  fun s =>
    match s.localsOrderIdx.bind (fun i => s.orders[i]?) with
    | none => (s, .fail ⟨500, "TypeError"⟩)
    | some o =>
      if o.status.eqStr "pending" then (s, .pass)
      else (s, .fail ⟨404, "An order cannot be deleted unless it is pending"⟩)

/-- The orders `create` handler: appends a record built from the body's
`deliverTo`, `mobileNumber` and `dishes`.  No `status` is ever assigned,
so the new record's status reads as `undefined`.  `newId` stands for the
fresh id the external `nextId()` utility produces. -/
def ordersCreate (req : Req) (newId : String) : MW OrdersState :=
  fun s =>
    let d := dataOrDefault req.body
    let o : Order :=
      ⟨newId, jsGet d "deliverTo", jsGet d "mobileNumber", .undefined, jsGet d "dishes"⟩
    ({ s with orders := s.orders ++ [o] }, .respond ⟨201, none⟩)

/-- The orders `update` handler: overwrites `deliverTo`, `mobileNumber`,
`status` and `dishes` of the record found by `orderExists`, in place
(modelled as `List.set` at the stored index); the `id` field is never
assigned.  Responds 200 with the updated record. -/
def ordersUpdate (req : Req) : MW OrdersState :=
  fun s =>
    match s.localsOrderIdx with
    | none => (s, .fail ⟨500, "TypeError"⟩)
    | some i =>
      match s.orders[i]? with
      | none => (s, .fail ⟨500, "TypeError"⟩)
      | some o =>
        let d := dataOrDefault req.body
        let o' : Order :=
          { o with
            deliverTo := jsGet d "deliverTo"
            mobileNumber := jsGet d "mobileNumber"
            status := jsGet d "status"
            dishes := jsGet d "dishes" }
        ({ s with orders := s.orders.set i o' }, .respond ⟨200, none⟩)

/-- The orders `destroy` handler: re-finds the index of the located
order's id with `findIndex` and splices that one element out, answering
204.  (The `none` branch is unreachable: the located order's own id
always occurs in the store.) -/
def ordersDestroy : MW OrdersState :=
  fun s =>
    match s.localsOrderIdx.bind (fun i => s.orders[i]?) with
    | none => (s, .fail ⟨500, "TypeError"⟩)
    | some o =>
      match s.orders.findIdx? (fun x => x.id == o.id) with
      | some j => ({ s with orders := s.orders.eraseIdx j }, .respond ⟨204, none⟩)
      | none => (s, .respond ⟨204, none⟩)

/-- The exported POST /orders chain. -/
def ordersCreateChain (req : Req) (newId : String) : List (MW OrdersState) :=
  [requestDataHasPropertyOrders "deliverTo" req,
   requestDataHasPropertyOrders "mobileNumber" req,
   requestDataHasPropertyOrders "dishes" req,
   validateDishes req,
   validateDishesQuantity,
   ordersCreate req newId]

/-- The exported PUT /orders/:orderId chain. -/
def ordersUpdateChain (req : Req) : List (MW OrdersState) :=
  [orderExists req,
   requestDataHasPropertyOrders "deliverTo" req,
   requestDataHasPropertyOrders "mobileNumber" req,
   requestDataHasPropertyOrders "status" req,
   validateStatusForExistingOrder req,
   requestDataHasPropertyOrders "dishes" req,
   validateDishes req,
   validateDishesQuantity,
   verifyOrderIdDataMatchesRoute req,
   ordersUpdate req]

/-- The exported DELETE /orders/:orderId chain. -/
def ordersDeleteChain (req : Req) : List (MW OrdersState) :=
  [orderExists req, verifyOrderIsPending, ordersDestroy]

/-! ## Dishes controller (`src/dishes/dishes.controller.js`) -/

/-- A record of the dishes store. -/
structure Dish where
  id : String
  name : JSValue
  description : JSValue
  price : JSValue
  image_url : JSValue

/-- Per-request state for the dishes routes. -/
structure DishesState where
  dishes : List Dish
  localsDishIdx : Option ℕ

/-- `requestDataHasProperty(propertyName)` (dishes controller): same
check as the orders variant, message "Dish must include a <prop>" with no
overrides. -/
def requestDataHasPropertyDishes (prop : String) (req : Req) : MW DishesState :=
  fun s =>
    match jsIndex (dataOrDefault req.body) prop with
    | none => (s, .fail ⟨500, "TypeError"⟩)
    | some v =>
      if v.truthy then (s, .pass)
      else (s, .fail ⟨400, "Dish must include a " ++ prop⟩)

/-- The guard of `priceDataIsValid`:
`price <= 0 || !Number.isInteger(price)`.  For a non-number price,
`Number.isInteger` is false, so the disjunction holds whatever the
relational coercion of `price <= 0` evaluates to. -/
def priceCheckFails (price : JSValue) : Bool :=
  match price with
  | .num q => decide (q ≤ 0) || !decide (q.den = 1)
  | _ => true

/-- `priceDataIsValid`: rejects a price that is not a positive integer
with 400, else passes. -/
def priceDataIsValid (req : Req) : MW DishesState :=
  fun s =>
    if priceCheckFails (jsGet (dataOrDefault req.body) "price") then
      (s, .fail ⟨400, "Dish must have a price that is an integer greater than 0"⟩)
    else (s, .pass)

/-- `imageUrlDataIsValid`: runs `new URL(image_url)` in a `try`; the
`catch` calls `next(err)` on a parse failure, and the `finally` block
calls `next()` *unconditionally* — also on the catch path, after the
error was already dispatched — so a malformed URL emits both
continuations (`failPass`).  `new URL` is a platform builtin, modelled by
the oracle `urlThrows` telling whether it throws on the given value. -/
def imageUrlDataIsValid (urlThrows : JSValue → Bool) (req : Req) : MW DishesState :=
  fun s =>
    if urlThrows (jsGet (dataOrDefault req.body) "image_url") then
      (s, .failPass ⟨400, "Malformed URL in property 'image_url'."⟩)
    else (s, .pass)

/-- `dishExists`: finds the dish whose `id` equals the `dishId` route
parameter, storing it in `res.locals.dish`; a miss is 404. -/
def dishExists (req : Req) : MW DishesState :=
  fun s =>
    match s.dishes.findIdx? (fun d => d.id == req.routeId) with
    | some i => ({ s with localsDishIdx := some i }, .pass)
    | none => (s, .fail ⟨404, "Dish does not exist: " ++ req.routeId ++ "."⟩)

/-- `verifyDishIdDataMatchesRoute`: passes when the body's `id` is falsy
or strictly equal to the located dish's id; otherwise fails 404 naming
both ids (the dishes variant of this message carries no trailing
period). -/
def verifyDishIdDataMatchesRoute (req : Req) : MW DishesState :=
  fun s =>
    match s.localsDishIdx.bind (fun i => s.dishes[i]?) with
    | none => (s, .fail ⟨500, "TypeError"⟩)
    | some d =>
      let bid := jsGet (jsGet req.body "data") "id"
      if !bid.truthy || bid.eqStr d.id then (s, .pass)
      else
        (s, .fail ⟨404, "Dish id does not match route id. Dish: "
          ++ jsToString bid ++ ", Route: " ++ d.id⟩)

/-- The dishes `create` handler: appends a record built from the body's
`name`, `description`, `price` and `image_url`, answering 201. -/
def dishesCreate (req : Req) (newId : String) : MW DishesState :=
  fun s =>
    let d := dataOrDefault req.body
    let rec0 : Dish :=
      ⟨newId, jsGet d "name", jsGet d "description", jsGet d "price", jsGet d "image_url"⟩
    ({ s with dishes := s.dishes ++ [rec0] }, .respond ⟨201, none⟩)

/-- The dishes `update` handler: overwrites `name`, `description`,
`price` and `image_url` of the record found by `dishExists`, in place;
the `id` field is never assigned.  Responds 200. -/
def dishesUpdate (req : Req) : MW DishesState :=
  fun s =>
    match s.localsDishIdx with
    | none => (s, .fail ⟨500, "TypeError"⟩)
    | some i =>
      match s.dishes[i]? with
      | none => (s, .fail ⟨500, "TypeError"⟩)
      | some d0 =>
        let d := dataOrDefault req.body
        let d' : Dish :=
          { d0 with
            name := jsGet d "name"
            description := jsGet d "description"
            price := jsGet d "price"
            image_url := jsGet d "image_url" }
        ({ s with dishes := s.dishes.set i d' }, .respond ⟨200, none⟩)

/-- The exported POST /dishes chain. -/
def dishesCreateChain (urlThrows : JSValue → Bool) (req : Req) (newId : String) :
    List (MW DishesState) :=
  [requestDataHasPropertyDishes "name" req,
   requestDataHasPropertyDishes "description" req,
   requestDataHasPropertyDishes "price" req,
   requestDataHasPropertyDishes "image_url" req,
   priceDataIsValid req,
   imageUrlDataIsValid urlThrows req,
   dishesCreate req newId]

/-- The exported PUT /dishes/:dishId chain. -/
def dishesUpdateChain (urlThrows : JSValue → Bool) (req : Req) :
    List (MW DishesState) :=
  [dishExists req,
   requestDataHasPropertyDishes "name" req,
   requestDataHasPropertyDishes "description" req,
   requestDataHasPropertyDishes "price" req,
   requestDataHasPropertyDishes "image_url" req,
   priceDataIsValid req,
   imageUrlDataIsValid urlThrows req,
   verifyDishIdDataMatchesRoute req,
   dishesUpdate req]

/-- The status enum the specification's data model prescribes for an
Order's `status` field.  This definition follows the spec's words, to be
compared with what the code stores. -/
def specOrderStatusEnum (v : JSValue) : Bool :=
  v.eqStr "pending" || v.eqStr "preparing" || v.eqStr "out-for-delivery" || v.eqStr "delivered"

/-! ## Theorems -/

/-- Indexing an object never throws and agrees with the safe read. -/
theorem jsIndex_obj (fs : List (String × JSValue)) (key : String) :
    jsIndex (.obj fs) key = some (jsGet (.obj fs) key) := by
  simp only [jsIndex, jsGet]
  cases fs.lookup key <;> rfl

/-- A number is truthy exactly when it is non-zero. -/
theorem truthy_num (q : ℚ) : (JSValue.num q).truthy = decide (q ≠ 0) := rfl

/-- A PUT body whose `data.status` is "delivered", targeting an order
whose stored status is "delivered". -/
def deliveredPutReq : Req :=
  ⟨"1", .obj [("data", .obj
    [("deliverTo", .str "A"), ("mobileNumber", .str "555"),
     ("status", .str "delivered"),
     ("dishes", .arr [.obj [("dishId", .str "1"), ("quantity", .num 1)]])])]⟩

/-- The one-order store containing a delivered order with id "1". -/
def deliveredStore : List Order :=
  [⟨"1", .str "HQ", .str "111", .str "delivered", .arr []⟩]

/-- A PUT body whose `data.status` is "preparing", targeting an order
whose stored status is "pending". -/
def preparingPutReq : Req :=
  ⟨"1", .obj [("data", .obj
    [("deliverTo", .str "A"), ("mobileNumber", .str "555"),
     ("status", .str "preparing"),
     ("dishes", .arr [.obj [("dishId", .str "1"), ("quantity", .num 1)]])])]⟩

/-- The one-order store containing a pending order with id "1". -/
def pendingStore : List Order :=
  [⟨"1", .str "HQ", .str "111", .str "pending", .arr []⟩]

/-- C1: the status guard checks the request body's status, not the
stored one, and passes exactly when the body says "delivered".  A PUT on
an order whose stored status is "delivered" (and whose body passes every
preceding validator) therefore sails through to the update handler and
answers 200, mutating the delivered order — instead of failing 400 with
"A delivered order cannot be changed".  Conversely a PUT carrying any
other status (here "preparing", on a pending order) is the one rejected
with that message. -/
theorem delivered_order_update_reaches_handler :
    (runStack (ordersUpdateChain deliveredPutReq) ⟨deliveredStore, none, none⟩).2
      = [⟨200, none⟩]
    ∧ (runStack (ordersUpdateChain deliveredPutReq) ⟨deliveredStore, none, none⟩).1.orders.map
        Order.deliverTo = [.str "A"]
    ∧ deliveredStore.map Order.status = [.str "delivered"]
    ∧ (runStack (ordersUpdateChain preparingPutReq) ⟨pendingStore, none, none⟩).2
      = [⟨400, some "A delivered order cannot be changed"⟩]
    ∧ pendingStore.map Order.status = [.str "pending"] :=
  ⟨rfl, rfl, rfl, rfl, rfl⟩

/-- The specification's own example of an invalid-quantity creation:
POST /orders with `{data:{deliverTo:"A",mobileNumber:"555",
dishes:[{dishId:"1",quantity:0}]}}`. -/
def zeroQuantityReq : Req :=
  ⟨"", .obj [("data", .obj
    [("deliverTo", .str "A"), ("mobileNumber", .str "555"),
     ("dishes", .arr [.obj [("dishId", .str "1"), ("quantity", .num 0)]])])]⟩

/-- C2: on a dishes entry with quantity 0, `validateDishesQuantity`
dispatches the 400 error inside the scan but then unconditionally calls
the success continuation, so the chain proceeds: the client sees the 400
(the first response written), yet the create handler still runs and
appends a record to the orders store — the store is NOT left
unchanged. -/
theorem invalid_quantity_create_appends_despite_400 :
    (runStack (ordersCreateChain zeroQuantityReq "5") ⟨[], none, none⟩).2
      = [⟨400, some "dish 0 must have a quantity that is an integer greater than 0"⟩,
         ⟨201, none⟩]
    ∧ (runStack (ordersCreateChain zeroQuantityReq "5") ⟨[], none, none⟩).1.orders.length
      = 1 :=
  ⟨rfl, rfl⟩

/-- C3: when `new URL(image_url)` throws, the `catch` block dispatches
the 400 "Malformed URL" error and then the `finally` block still calls
the success continuation — the validator invokes BOTH continuations for
one request, never just the error one. -/
theorem malformed_image_url_invokes_both_continuations
    (urlThrows : JSValue → Bool) (req : Req) (s : DishesState)
    (h : urlThrows (jsGet (dataOrDefault req.body) "image_url") = true) :
    (imageUrlDataIsValid urlThrows req s).2
      = .failPass ⟨400, "Malformed URL in property 'image_url'."⟩ := by
  simp [imageUrlDataIsValid, h]

/-- C3 witness: a concrete request whose image_url fails to parse
(oracle: `new URL` throws on the given value). -/
theorem malformed_image_url_invokes_both_continuations_witness :
    (imageUrlDataIsValid (fun _ => true) ⟨"", .obj []⟩ ⟨[], none⟩).2
      = .failPass ⟨400, "Malformed URL in property 'image_url'."⟩ :=
  malformed_image_url_invokes_both_continuations (fun _ => true) ⟨"", .obj []⟩ ⟨[], none⟩ rfl

/-- A fully valid POST /orders body. -/
def validOrderCreateReq : Req :=
  ⟨"", .obj [("data", .obj
    [("deliverTo", .str "A"), ("mobileNumber", .str "555"),
     ("dishes", .arr [.obj [("dishId", .str "1"), ("quantity", .num 2)]])])]⟩

/-- C4 counterexample: a valid POST /orders succeeds (201) yet the
record it appends has status `undefined` — not a non-empty string drawn
from {pending, preparing, out-for-delivery, delivered}.  The claimed
store invariant fails for every freshly created order. -/
theorem created_order_lacks_enum_status :
    (runStack (ordersCreateChain validOrderCreateReq "7") ⟨[], none, none⟩).2
      = [⟨201, none⟩]
    ∧ (runStack (ordersCreateChain validOrderCreateReq "7") ⟨[], none, none⟩).1.orders.map
        Order.status = [JSValue.undefined]
    ∧ specOrderStatusEnum JSValue.undefined = false :=
  ⟨rfl, rfl, rfl⟩

/-- C4 amended: the create handler never assigns a status, so every
order it appends carries status `undefined`, which is not in the spec's
enum; the enum invariant is not established at creation. -/
theorem create_never_assigns_status (req : Req) (newId : String) (s : OrdersState) :
    ((ordersCreate req newId) s).1.orders.getLast?.map Order.status = some JSValue.undefined
    ∧ specOrderStatusEnum JSValue.undefined = false
    ∧ ((ordersCreate req newId) s).1.orders.length = s.orders.length + 1 := by
  refine ⟨?_, rfl, ?_⟩ <;> simp [ordersCreate]

/-- C5: for both resources, once the route record is located, a truthy
body id that is not strictly equal to the route record's id is rejected
with status 404 — deliberately 404 — and a message naming both the body
id and the route id; a falsy or matching body id lets the request pass
onward. -/
theorem id_mismatch_rejected_404
    (req : Req) (sO : OrdersState) (sD : DishesState)
    (i j : ℕ) (o : Order) (d : Dish)
    (hiO : sO.localsOrderIdx = some i) (hoO : sO.orders[i]? = some o)
    (hiD : sD.localsDishIdx = some j) (hoD : sD.dishes[j]? = some d) :
    ((jsGet (jsGet req.body "data") "id").truthy = true →
      (jsGet (jsGet req.body "data") "id").eqStr o.id = false →
      (verifyOrderIdDataMatchesRoute req sO).2
        = .fail ⟨404, "Order id does not match route id. Order: "
            ++ jsToString (jsGet (jsGet req.body "data") "id") ++ ", Route: " ++ o.id ++ "."⟩)
    ∧ ((jsGet (jsGet req.body "data") "id").truthy = false
        ∨ (jsGet (jsGet req.body "data") "id").eqStr o.id = true →
      (verifyOrderIdDataMatchesRoute req sO).2 = .pass)
    ∧ ((jsGet (jsGet req.body "data") "id").truthy = true →
      (jsGet (jsGet req.body "data") "id").eqStr d.id = false →
      (verifyDishIdDataMatchesRoute req sD).2
        = .fail ⟨404, "Dish id does not match route id. Dish: "
            ++ jsToString (jsGet (jsGet req.body "data") "id") ++ ", Route: " ++ d.id⟩)
    ∧ ((jsGet (jsGet req.body "data") "id").truthy = false
        ∨ (jsGet (jsGet req.body "data") "id").eqStr d.id = true →
      (verifyDishIdDataMatchesRoute req sD).2 = .pass) := by
  refine ⟨fun h1 h2 => ?_, fun h => ?_, fun h1 h2 => ?_, fun h => ?_⟩
  · simp [verifyOrderIdDataMatchesRoute, hiO, hoO, h1, h2, Option.bind]
  · cases h with
    | inl h => simp [verifyOrderIdDataMatchesRoute, hiO, hoO, h, Option.bind]
    | inr h => simp [verifyOrderIdDataMatchesRoute, hiO, hoO, h, Option.bind]
  · simp [verifyDishIdDataMatchesRoute, hiD, hoD, h1, h2, Option.bind]
  · cases h with
    | inl h => simp [verifyDishIdDataMatchesRoute, hiD, hoD, h, Option.bind]
    | inr h => simp [verifyDishIdDataMatchesRoute, hiD, hoD, h, Option.bind]

/-- A PUT body carrying id "9" on a route whose record has id "1". -/
def mismatchIdReq : Req := ⟨"1", .obj [("data", .obj [("id", .str "9")])]⟩

/-- A one-record orders state with the record (id "1") already located. -/
def locatedOrderState : OrdersState :=
  ⟨[⟨"1", .undefined, .undefined, .undefined, .undefined⟩], some 0, none⟩

/-- A one-record dishes state with the record (id "1") already located. -/
def locatedDishState : DishesState :=
  ⟨[⟨"1", .undefined, .undefined, .undefined, .undefined⟩], some 0⟩

/-- C5 witness: body id "9" against route id "1" is rejected 404 with a
message naming both. -/
theorem id_mismatch_rejected_404_witness :
    (verifyOrderIdDataMatchesRoute mismatchIdReq locatedOrderState).2
      = .fail ⟨404, "Order id does not match route id. Order: 9, Route: 1."⟩ :=
  (id_mismatch_rejected_404 mismatchIdReq locatedOrderState locatedDishState 0 0
    ⟨"1", .undefined, .undefined, .undefined, .undefined⟩ ⟨"1", .undefined, .undefined, .undefined, .undefined⟩
    rfl rfl rfl rfl).1 rfl rfl

/-- C6: for a DELETE whose route id locates an order, a stored status
other than "pending" yields 404 "An order cannot be deleted unless it is
pending" and leaves the orders store untouched (the destroy handler
never runs); a stored status of "pending" reaches the destroy handler,
which removes the record and answers 204. -/
theorem nonpending_delete_rejected
    (req : Req) (os : List Order) (i j : ℕ) (o : Order)
    (hfind : os.findIdx? (fun x => x.id == req.routeId) = some i)
    (hget : os[i]? = some o)
    (hfind2 : os.findIdx? (fun x => x.id == o.id) = some j) :
    (o.status.eqStr "pending" = false →
      runStack (ordersDeleteChain req) ⟨os, none, none⟩
        = (⟨os, some i, none⟩,
           [⟨404, some "An order cannot be deleted unless it is pending"⟩]))
    ∧ (o.status.eqStr "pending" = true →
      runStack (ordersDeleteChain req) ⟨os, none, none⟩
        = (⟨os.eraseIdx j, some i, none⟩, [⟨204, none⟩])) := by
  constructor <;> intro h <;>
    simp [runStack, ordersDeleteChain, orderExists, verifyOrderIsPending, ordersDestroy,
      hfind, hget, hfind2, h, errResp, Option.bind]

/-- A one-order store holding a delivered (hence non-pending) order. -/
def deliveredOnlyStore : List Order :=
  [⟨"9", .str "HQ", .str "111", .str "delivered", .arr []⟩]

/-- C6 witness: deleting the delivered order "9" answers 404 and leaves
the store unchanged. -/
theorem nonpending_delete_rejected_witness :
    runStack (ordersDeleteChain ⟨"9", .obj []⟩) ⟨deliveredOnlyStore, none, none⟩
      = (⟨deliveredOnlyStore, some 0, none⟩,
         [⟨404, some "An order cannot be deleted unless it is pending"⟩]) :=
  (nonpending_delete_rejected ⟨"9", .obj []⟩ deliveredOnlyStore 0 0
    ⟨"9", .str "HQ", .str "111", .str "delivered", .arr []⟩ rfl rfl rfl).1 rfl

/-- C7: whenever the `data` property the presence validator reads for a
required field is defined but falsy (absent key, empty string, 0, null,
and so on), the validator fails with status 400 and the resource's
missing-field message — "Dish must include a <field>" for dishes,
"Order must include a <field>" for orders with the `dishes` override
"Order must include a dish" and the fixed `status` enumeration message —
and no later middleware (in particular no handler) runs: the state is
returned unchanged whatever the rest of the chain is. -/
theorem missing_required_field_rejects_400
    (prop : String) (req : Req) (v : JSValue)
    (sO : OrdersState) (sD : DishesState)
    (restO : List (MW OrdersState)) (restD : List (MW DishesState))
    (hv : jsIndex (dataOrDefault req.body) prop = some v)
    (ht : v.truthy = false) :
    runStack (requestDataHasPropertyOrders prop req :: restO) sO
      = (sO, [⟨400, some (ordersPresenceMsg prop)⟩])
    ∧ runStack (requestDataHasPropertyDishes prop req :: restD) sD
      = (sD, [⟨400, some ("Dish must include a " ++ prop)⟩]) := by
  constructor <;>
    simp [runStack, requestDataHasPropertyOrders, requestDataHasPropertyDishes,
      hv, ht, errResp]

/-- C7 witness: a body with no data at all lacks every field; the `name`
presence validator rejects it for dishes and orders alike, and the rest
of the chain (here empty) never runs. -/
theorem missing_required_field_rejects_400_witness :
    runStack [requestDataHasPropertyOrders "name" ⟨"", .obj []⟩] ⟨[], none, none⟩
      = (⟨[], none, none⟩, [⟨400, some (ordersPresenceMsg "name")⟩])
    ∧ runStack [requestDataHasPropertyDishes "name" ⟨"", .obj []⟩] ⟨[], none⟩
      = (⟨[], none⟩, [⟨400, some ("Dish must include a " ++ "name")⟩]) :=
  missing_required_field_rejects_400 "name" ⟨"", .obj []⟩ .undefined
    ⟨[], none, none⟩ ⟨[], none⟩ [] [] rfl rfl

/-- C8: for a dish create or update request whose other text fields are
present and whose price is the number `q`: price 0 is falsy, so the
presence check already rejects it with "Dish must include a price"; any
other non-positive or non-integer price passes the presence check and is
rejected by `priceDataIsValid` with "Dish must have a price that is an
integer greater than 0" — in all such cases the whole chain answers 400
and mutates nothing; a positive integer price passes both checks. -/
theorem bad_price_rejected
    (u : JSValue → Bool) (req : Req) (newId : String) (q : ℚ)
    (fs : List (String × JSValue)) (sC sU : DishesState) (i : ℕ)
    (hfs : dataOrDefault req.body = .obj fs)
    (hname : (jsGet (.obj fs) "name").truthy = true)
    (hdesc : (jsGet (.obj fs) "description").truthy = true)
    (hurl : (jsGet (.obj fs) "image_url").truthy = true)
    (hprice : jsGet (.obj fs) "price" = .num q)
    (hfind : sU.dishes.findIdx? (fun x => x.id == req.routeId) = some i) :
    (q = 0 →
      runStack (dishesCreateChain u req newId) sC
        = (sC, [⟨400, some "Dish must include a price"⟩])
      ∧ runStack (dishesUpdateChain u req) sU
        = ({ sU with localsDishIdx := some i },
           [⟨400, some "Dish must include a price"⟩]))
    ∧ (q ≠ 0 → q ≤ 0 ∨ q.den ≠ 1 →
      runStack (dishesCreateChain u req newId) sC
        = (sC, [⟨400, some "Dish must have a price that is an integer greater than 0"⟩])
      ∧ runStack (dishesUpdateChain u req) sU
        = ({ sU with localsDishIdx := some i },
           [⟨400, some "Dish must have a price that is an integer greater than 0"⟩]))
    ∧ (0 < q → q.den = 1 →
      ((requestDataHasPropertyDishes "price" req) sC).2 = .pass
      ∧ ((priceDataIsValid req) sC).2 = .pass) := by
  refine ⟨fun h0 => ?_, fun h0 hb => ?_, fun hq hd => ?_⟩
  · subst h0
    constructor <;>
      simp [runStack, dishesCreateChain, dishesUpdateChain, requestDataHasPropertyDishes,
        dishExists, hfs, jsIndex_obj, hname, hdesc, hurl, hprice, hfind,
        truthy_num, errResp]
  · have hpc : priceCheckFails (.num q) = true := by
      cases hb with
      | inl hle => simp [priceCheckFails, hle]
      | inr hden => simp [priceCheckFails, hden]
    constructor <;>
      simp [runStack, dishesCreateChain, dishesUpdateChain, requestDataHasPropertyDishes,
        priceDataIsValid, dishExists, hfs, jsIndex_obj, hname, hdesc, hurl, hprice, hfind,
        hpc, truthy_num, h0, errResp]
  · have h0 : q ≠ 0 := ne_of_gt hq
    have hpc : priceCheckFails (.num q) = false := by
      simp [priceCheckFails, hd, not_le.mpr hq]
    constructor <;>
      simp [requestDataHasPropertyDishes, priceDataIsValid, hfs, jsIndex_obj, hprice,
        truthy_num, h0, hpc]

/-- A POST /dishes body whose price is -3 and whose other fields are
valid. -/
def negativePriceReq : Req :=
  ⟨"1", .obj [("data", .obj
    [("name", .str "Taco"), ("description", .str "Spicy"),
     ("price", .num (-3)), ("image_url", .str "http://x/y.png")])]⟩

/-- A one-dish store whose record has id "1", as the update route state. -/
def onePriceDishState : DishesState :=
  ⟨[⟨"1", .str "Taco", .str "Spicy", .num 8, .str "http://x/y.png"⟩], none⟩

/-- C8 witness: price -3 is rejected with the price-validator message on
both the create and the update chain (oracle: the URL parses). -/
theorem bad_price_rejected_witness :
    runStack (dishesCreateChain (fun _ => false) negativePriceReq "7") ⟨[], none⟩
      = (⟨[], none⟩,
         [⟨400, some "Dish must have a price that is an integer greater than 0"⟩])
    ∧ runStack (dishesUpdateChain (fun _ => false) negativePriceReq) onePriceDishState
      = ({ onePriceDishState with localsDishIdx := some 0 },
         [⟨400, some "Dish must have a price that is an integer greater than 0"⟩]) :=
  (bad_price_rejected (fun _ => false) negativePriceReq "7" (-3)
    [("name", .str "Taco"), ("description", .str "Spicy"),
     ("price", .num (-3)), ("image_url", .str "http://x/y.png")]
    ⟨[], none⟩ onePriceDishState 0 rfl rfl rfl rfl rfl rfl).2.1
    (by norm_num) (Or.inl (by norm_num))

/-- C9: a falsy body id (empty string, 0, null, undefined) makes the
id-match validators pass control onward with no error, even though the
located record's (route) id is non-empty and therefore differs from the
supplied falsy value; only a truthy, unequal id is rejected. -/
theorem falsy_body_id_passes_match_validator
    (req : Req) (sO : OrdersState) (sD : DishesState)
    (i j : ℕ) (o : Order) (d : Dish)
    (hiO : sO.localsOrderIdx = some i) (hoO : sO.orders[i]? = some o)
    (hiD : sD.localsDishIdx = some j) (hoD : sD.dishes[j]? = some d)
    (h : (jsGet (jsGet req.body "data") "id").truthy = false) :
    (verifyOrderIdDataMatchesRoute req sO).2 = .pass
    ∧ (verifyDishIdDataMatchesRoute req sD).2 = .pass := by
  constructor <;>
    simp [verifyOrderIdDataMatchesRoute, verifyDishIdDataMatchesRoute,
      hiO, hoO, hiD, hoD, h, Option.bind]

/-- A PUT body carrying the falsy id 0 on a route whose record has the
non-empty id "5". -/
def falsyIdReq : Req := ⟨"5", .obj [("data", .obj [("id", .num 0)])]⟩

/-- A one-record orders state with the record (id "5") already located. -/
def locatedOrderState5 : OrdersState :=
  ⟨[⟨"5", .undefined, .undefined, .undefined, .undefined⟩], some 0, none⟩

/-- A one-record dishes state with the record (id "5") already located. -/
def locatedDishState5 : DishesState :=
  ⟨[⟨"5", .undefined, .undefined, .undefined, .undefined⟩], some 0⟩

/-- C9 witness: body id 0 against route id "5" passes both match
validators. -/
theorem falsy_body_id_passes_match_validator_witness :
    (verifyOrderIdDataMatchesRoute falsyIdReq locatedOrderState5).2 = .pass
    ∧ (verifyDishIdDataMatchesRoute falsyIdReq locatedDishState5).2 = .pass :=
  falsy_body_id_passes_match_validator falsyIdReq locatedOrderState5 locatedDishState5
    0 0 ⟨"5", .undefined, .undefined, .undefined, .undefined⟩ ⟨"5", .undefined, .undefined, .undefined, .undefined⟩
    rfl rfl rfl rfl rfl

/-- C10: whenever the update handlers run on a located record, they
write exactly the four mutable fields of that record (dish: name,
description, price, image_url; order: deliverTo, mobileNumber, status,
dishes), leaving its id as it was, and every other record, the store's
length and its ordering are unchanged. -/
theorem update_writes_only_mutable_fields
    (req : Req) (sO : OrdersState) (sD : DishesState)
    (i j : ℕ) (o : Order) (d : Dish)
    (hiO : sO.localsOrderIdx = some i) (hoO : sO.orders[i]? = some o)
    (hiD : sD.localsDishIdx = some j) (hoD : sD.dishes[j]? = some d) :
    ((ordersUpdate req) sO).1.orders.length = sO.orders.length
    ∧ ((ordersUpdate req) sO).1.orders[i]? = some
        { o with
          deliverTo := jsGet (dataOrDefault req.body) "deliverTo"
          mobileNumber := jsGet (dataOrDefault req.body) "mobileNumber"
          status := jsGet (dataOrDefault req.body) "status"
          dishes := jsGet (dataOrDefault req.body) "dishes" }
    ∧ (∀ k, k ≠ i → ((ordersUpdate req) sO).1.orders[k]? = sO.orders[k]?)
    ∧ ((dishesUpdate req) sD).1.dishes.length = sD.dishes.length
    ∧ ((dishesUpdate req) sD).1.dishes[j]? = some
        { d with
          name := jsGet (dataOrDefault req.body) "name"
          description := jsGet (dataOrDefault req.body) "description"
          price := jsGet (dataOrDefault req.body) "price"
          image_url := jsGet (dataOrDefault req.body) "image_url" }
    ∧ (∀ k, k ≠ j → ((dishesUpdate req) sD).1.dishes[k]? = sD.dishes[k]?) := by
  have hltO : i < sO.orders.length := by
    rcases List.getElem?_eq_some_iff.mp hoO with ⟨hlt, _⟩
    exact hlt
  have hltD : j < sD.dishes.length := by
    rcases List.getElem?_eq_some_iff.mp hoD with ⟨hlt, _⟩
    exact hlt
  refine ⟨?_, ?_, fun k hk => ?_, ?_, ?_, fun k hk => ?_⟩
  · simp [ordersUpdate, hiO, hoO]
  · simp [ordersUpdate, hiO, hoO, List.getElem?_set_self hltO]
  · simp [ordersUpdate, hiO, hoO, List.getElem?_set_ne (Ne.symm hk)]
  · simp [dishesUpdate, hiD, hoD]
  · simp [dishesUpdate, hiD, hoD, List.getElem?_set_self hltD]
  · simp [dishesUpdate, hiD, hoD, List.getElem?_set_ne (Ne.symm hk)]

/-- A two-order store, to exhibit the frame property on the untouched
record. -/
def twoOrderState : OrdersState :=
  ⟨[⟨"1", .str "HQ", .str "111", .str "pending", .arr []⟩,
    ⟨"2", .str "B", .str "222", .str "pending", .arr []⟩], some 0, none⟩

/-- A one-dish store, with the dish located for update. -/
def oneDishState : DishesState :=
  ⟨[⟨"1", .str "Taco", .str "Spicy", .num 8, .str "http://x/y.png"⟩], some 0⟩

/-- C10 witness: updating order "1" of a two-order store keeps its id,
keeps the store length, and leaves order "2" untouched; likewise for the
one-dish store. -/
theorem update_writes_only_mutable_fields_witness :
    ((ordersUpdate deliveredPutReq) twoOrderState).1.orders.length
      = twoOrderState.orders.length
    ∧ ((ordersUpdate deliveredPutReq) twoOrderState).1.orders[1]?
      = twoOrderState.orders[1]? :=
  ⟨(update_writes_only_mutable_fields deliveredPutReq twoOrderState oneDishState 0 0
      ⟨"1", .str "HQ", .str "111", .str "pending", .arr []⟩
      ⟨"1", .str "Taco", .str "Spicy", .num 8, .str "http://x/y.png"⟩
      rfl rfl rfl rfl).1,
   (update_writes_only_mutable_fields deliveredPutReq twoOrderState oneDishState 0 0
      ⟨"1", .str "HQ", .str "111", .str "pending", .arr []⟩
      ⟨"1", .str "Taco", .str "Spicy", .num 8, .str "http://x/y.png"⟩
      rfl rfl rfl rfl).2.2.1 1 one_ne_zero⟩

end FoodService
